import Mathlib

/-!
Verification of the paycalc offer-evaluation core (`src/lib/calculations.ts`)
against its natural-language specification.

Numbers are modelled as rationals.  JavaScript's `Math.round(x * 100) / 100`
(round half toward positive infinity) is modelled by `round2`, `Math.floor`
by `Int.floor`, `Math.min` by `min`.  The presentation-only `summary` string
of `OfferEvaluation` is not modelled; every numeric field is.
-/

namespace PayCalc

/-- JS `Math.round(q * 100) / 100`: `Math.round` rounds half toward +∞,
i.e. `Math.round x = ⌊x + 1/2⌋`. -/
def round2 (q : ℚ) : ℚ := (⌊q * 100 + 1/2⌋ : ℤ) / 100

structure CalculationSettings where
  perPickup : ℚ        -- minutes per pickup
  perDrop : ℚ          -- minutes per drop
  perItem : ℚ          -- minutes per item (shopping)
  avgSpeed : ℚ         -- mph
  expectedPay : ℚ      -- $/hour target
  maxOrdersPerHour : ℚ -- max orders possible per hour
  return1Drop : ℚ      -- return % for 1 drop
  return2Drop : ℚ      -- return % for 2 drops
  deriving Repr, DecidableEq

structure MaxesInput where
  pay : ℚ
  pickups : ℚ
  drops : ℚ
  deriving Repr, DecidableEq

structure MaxesResult where
  maxMins : ℚ
  fixedTime : ℚ
  maxMiles : ℚ
  maxItems : ℤ
  deriving Repr, DecidableEq

structure PayReqInput where
  pickups : ℚ
  drops : ℚ
  miles : ℚ
  items : ℚ
  deriving Repr, DecidableEq

structure PayReqResult where
  pickupTime : ℚ
  travelTime : ℚ
  dropTime : ℚ
  shoppingTime : ℚ
  returnDelta : ℚ
  totalMins : ℚ
  payReq : ℚ
  deriving Repr, DecidableEq

def DEFAULT_SETTINGS : CalculationSettings :=
  { perPickup := 5
    perDrop := 2
    perItem := 3/2
    avgSpeed := 35
    expectedPay := 21
    maxOrdersPerHour := 3
    return1Drop := 100
    return2Drop := 50 }

def calculateMaxes (input : MaxesInput)
    (settings : CalculationSettings := DEFAULT_SETTINGS) : MaxesResult :=
  let returnPercent := if input.drops ≥ 2 then settings.return2Drop else settings.return1Drop
  let maxMins := input.pay / settings.expectedPay * 60
  let pickupTime := input.pickups * settings.perPickup
  let dropTime := input.drops * settings.perDrop
  let fixedTime := pickupTime + dropTime
  let remainingTime := maxMins - fixedTime
  let travelMultiplier := 1 + returnPercent / 100
  let maxTravelTime := remainingTime / travelMultiplier
  let maxMiles := maxTravelTime * settings.avgSpeed / 60
  let maxItems := remainingTime / settings.perItem
  { maxMins := round2 maxMins
    fixedTime := fixedTime
    maxMiles := round2 maxMiles
    maxItems := ⌊maxItems⌋ }

def calculatePayReq (input : PayReqInput)
    (settings : CalculationSettings := DEFAULT_SETTINGS) : PayReqResult :=
  let returnPercent := if input.drops ≥ 2 then settings.return2Drop else settings.return1Drop
  let travelTime := input.miles / settings.avgSpeed * 60
  let pickupTime := input.pickups * settings.perPickup
  let dropTime := input.drops * settings.perDrop
  let shoppingTime := input.items * settings.perItem
  let returnDelta := travelTime * (returnPercent / 100)
  let totalMins := pickupTime + travelTime + dropTime + shoppingTime + returnDelta
  let payReq := totalMins * (settings.expectedPay / 60)
  { pickupTime := pickupTime
    travelTime := round2 travelTime
    dropTime := dropTime
    shoppingTime := shoppingTime
    returnDelta := round2 returnDelta
    totalMins := round2 totalMins
    payReq := round2 payReq }

/-- TS `OfferInput` has optional fields with defaults `pickups = 1`,
`drops = 1`, `miles = 0`, `items = 0`; modelled as field defaults. -/
structure OfferInput where
  pay : ℚ
  pickups : ℚ := 1
  drops : ℚ := 1
  miles : ℚ := 0
  items : ℚ := 0
  deriving Repr, DecidableEq

inductive Verdict where
  | good
  | decent
  | bad
  deriving Repr, DecidableEq

structure Breakdown where
  pickup : ℚ
  travel : ℚ
  drop : ℚ
  shopping : ℚ
  return2 : ℚ  -- TS field `return` (a Lean keyword)
  deriving Repr, DecidableEq

structure OfferEvaluation where
  verdict : Verdict
  verdictEmoji : String
  verdictText : String
  effectiveHourly : ℚ
  requiredPay : ℚ
  difference : ℚ
  totalMinutes : ℚ
  maxMiles : ℚ
  maxItems : ℤ
  maxMinutes : ℚ
  breakdown : Breakdown
  deriving Repr, DecidableEq

def evaluateOffer (input : OfferInput)
    (settings : CalculationSettings := DEFAULT_SETTINGS) : OfferEvaluation :=
  let maxes := calculateMaxes ⟨input.pay, input.pickups, input.drops⟩ settings
  let payReq := calculatePayReq ⟨input.pickups, input.drops, input.miles, input.items⟩ settings
  let ordersPerHour :=
    if payReq.totalMins > 0 then min settings.maxOrdersPerHour (60 / payReq.totalMins) else 0
  let effectiveHourly := round2 (input.pay * ordersPerHour)
  let meetsRequired := input.pay ≥ payReq.payReq
  let verdict : Verdict :=
    if ¬ meetsRequired then .bad
    else if effectiveHourly ≥ settings.expectedPay then .good
    else .decent
  let verdictEmoji := match verdict with
    | .bad => "🔴"
    | .good => "🟢"
    | .decent => "🟡"
  let verdictText := match verdict with
    | .bad => "BAD"
    | .good => "GOOD"
    | .decent => "DECENT"
  let difference := round2 (input.pay - payReq.payReq)
  { verdict := verdict
    verdictEmoji := verdictEmoji
    verdictText := verdictText
    effectiveHourly := effectiveHourly
    requiredPay := payReq.payReq
    difference := difference
    totalMinutes := payReq.totalMins
    maxMiles := maxes.maxMiles
    maxItems := maxes.maxItems
    maxMinutes := maxes.maxMins
    breakdown :=
      { pickup := payReq.pickupTime
        travel := payReq.travelTime
        drop := payReq.dropTime
        shopping := payReq.shoppingTime
        return2 := payReq.returnDelta } }

/-! Named forms of `calculatePayReq`'s internal (unrounded) let-bindings,
used to state and prove properties of the rounded result fields. -/

def returnPercent (drops : ℚ) (settings : CalculationSettings) : ℚ :=
  if drops ≥ 2 then settings.return2Drop else settings.return1Drop

def rawTravelTime (input : PayReqInput) (settings : CalculationSettings) : ℚ :=
  input.miles / settings.avgSpeed * 60

def rawReturnDelta (input : PayReqInput) (settings : CalculationSettings) : ℚ :=
  rawTravelTime input settings * (returnPercent input.drops settings / 100)

def rawTotalMins (input : PayReqInput) (settings : CalculationSettings) : ℚ :=
  input.pickups * settings.perPickup + rawTravelTime input settings +
    input.drops * settings.perDrop + input.items * settings.perItem +
    rawReturnDelta input settings

def rawPayReq (input : PayReqInput) (settings : CalculationSettings) : ℚ :=
  rawTotalMins input settings * (settings.expectedPay / 60)

theorem calculatePayReq_eq (input : PayReqInput) (settings : CalculationSettings) :
    calculatePayReq input settings =
      { pickupTime := input.pickups * settings.perPickup
        travelTime := round2 (rawTravelTime input settings)
        dropTime := input.drops * settings.perDrop
        shoppingTime := input.items * settings.perItem
        returnDelta := round2 (rawReturnDelta input settings)
        totalMins := round2 (rawTotalMins input settings)
        payReq := round2 (rawPayReq input settings) } := rfl

/-- The `ordersPerHour` let-binding of `evaluateOffer`, as a named function.
Note it divides by the already-rounded `totalMins` field. -/
def ordersPerHour (input : OfferInput) (settings : CalculationSettings) : ℚ :=
  let payReq := calculatePayReq ⟨input.pickups, input.drops, input.miles, input.items⟩ settings
  if payReq.totalMins > 0 then min settings.maxOrdersPerHour (60 / payReq.totalMins) else 0

theorem evaluateOffer_effectiveHourly (input : OfferInput) (settings : CalculationSettings) :
    (evaluateOffer input settings).effectiveHourly =
      round2 (input.pay * ordersPerHour input settings) := rfl

/-- The floor test of the `src/` revision of `evaluateOffer`
(`meetsRequired = pay >= payReq.payReq`). -/
def meetsFloor (input : OfferInput) (settings : CalculationSettings) : Prop :=
  (calculatePayReq ⟨input.pickups, input.drops, input.miles, input.items⟩ settings).payReq ≤
    input.pay

instance (input : OfferInput) (settings : CalculationSettings) :
    Decidable (meetsFloor input settings) :=
  inferInstanceAs (Decidable (_ ≤ _))

/-- Verdict quality ordering: BAD < DECENT < GOOD. -/
def verdictRank : Verdict → ℕ
  | .bad => 0
  | .decent => 1
  | .good => 2

/-- The settings invariant of spec §3 (componentwise nonnegativity plus the
stated `avgSpeed > 0`, `maxOrdersPerHour > 0`). -/
def ValidSettings (s : CalculationSettings) : Prop :=
  0 ≤ s.perPickup ∧ 0 ≤ s.perDrop ∧ 0 ≤ s.perItem ∧ 0 < s.avgSpeed ∧
    0 ≤ s.expectedPay ∧ 0 < s.maxOrdersPerHour ∧ 0 ≤ s.return1Drop ∧ 0 ≤ s.return2Drop

/-- Nonnegative offer fields. -/
def NonnegOffer (i : OfferInput) : Prop :=
  0 ≤ i.pay ∧ 0 ≤ i.pickups ∧ 0 ≤ i.drops ∧ 0 ≤ i.miles ∧ 0 ≤ i.items

/-- C1: for every offer and settings, `evaluateOffer` returns BAD iff the
floor test fails, GOOD iff the floor test passes and the effective hourly
rate reaches `expectedPay`, and DECENT iff the floor test passes but the
effective hourly rate falls short; the three cases are exhaustive and
mutually exclusive. -/
theorem evaluateOffer_verdict_cases (input : OfferInput) (settings : CalculationSettings) :
    ((evaluateOffer input settings).verdict = .bad ↔ ¬ meetsFloor input settings) ∧
    ((evaluateOffer input settings).verdict = .good ↔
      meetsFloor input settings ∧
        settings.expectedPay ≤ (evaluateOffer input settings).effectiveHourly) ∧
    ((evaluateOffer input settings).verdict = .decent ↔
      meetsFloor input settings ∧
        (evaluateOffer input settings).effectiveHourly < settings.expectedPay) := by
  simp only [evaluateOffer, meetsFloor, ge_iff_le]
  split_ifs with h1 h2 <;> simp_all [not_le, not_lt]

/-- C2: `calculatePayReq` computes the documented time components, their sum
`totalMins`, and `payReq = totalMins * expectedPay / 60` (each result field
rounded once, at the boundary); in particular, Scenario A: default settings,
pickups 1, drops 1, miles 35 give travelTime 60, returnDelta 60,
pickupTime 5, dropTime 2, totalMins 127, payReq 44.45, and the offer with
pay 21 is evaluated as BAD. -/
theorem calculatePayReq_formulas :
    (∀ (input : PayReqInput) (settings : CalculationSettings),
      returnPercent input.drops settings =
        (if input.drops ≥ 2 then settings.return2Drop else settings.return1Drop) ∧
      rawTravelTime input settings = input.miles / settings.avgSpeed * 60 ∧
      rawReturnDelta input settings =
        rawTravelTime input settings * (returnPercent input.drops settings / 100) ∧
      rawTotalMins input settings =
        input.pickups * settings.perPickup + rawTravelTime input settings +
          input.drops * settings.perDrop + input.items * settings.perItem +
          rawReturnDelta input settings ∧
      rawPayReq input settings = rawTotalMins input settings * (settings.expectedPay / 60) ∧
      calculatePayReq input settings =
        { pickupTime := input.pickups * settings.perPickup
          travelTime := round2 (rawTravelTime input settings)
          dropTime := input.drops * settings.perDrop
          shoppingTime := input.items * settings.perItem
          returnDelta := round2 (rawReturnDelta input settings)
          totalMins := round2 (rawTotalMins input settings)
          payReq := round2 (rawPayReq input settings) }) ∧
    calculatePayReq ⟨1, 1, 35, 0⟩ DEFAULT_SETTINGS =
      { pickupTime := 5, travelTime := 60, dropTime := 2, shoppingTime := 0,
        returnDelta := 60, totalMins := 127, payReq := 889/20 } ∧
    (evaluateOffer { pay := 21, miles := 35 } DEFAULT_SETTINGS).verdict = .bad := by
  refine ⟨fun input settings => ⟨rfl, rfl, rfl, rfl, rfl, rfl⟩, ?_, ?_⟩
  · norm_num [calculatePayReq, DEFAULT_SETTINGS, round2, rawTravelTime, rawReturnDelta,
      rawTotalMins, rawPayReq, returnPercent, PayReqResult.mk.injEq]
  · norm_num [evaluateOffer, calculatePayReq, calculateMaxes, DEFAULT_SETTINGS, round2, min_def]

/-- C9: `calculateMaxes` does not clamp its maxima at zero: at pay 1 with
default settings (where the pay budget `pay / expectedPay * 60` is below the
fixed pickup+drop time), the returned `maxMiles` and `maxItems` are strictly
negative. -/
theorem calculateMaxes_no_clamp :
    (calculateMaxes ⟨1, 1, 1⟩ DEFAULT_SETTINGS).maxMiles < 0 ∧
    (calculateMaxes ⟨1, 1, 1⟩ DEFAULT_SETTINGS).maxItems < 0 ∧
    (1 : ℚ) / DEFAULT_SETTINGS.expectedPay * 60 <
      1 * DEFAULT_SETTINGS.perPickup + 1 * DEFAULT_SETTINGS.perDrop := by
  norm_num [calculateMaxes, DEFAULT_SETTINGS, round2]

/-- C10: the `difference` field of `evaluateOffer` always equals
`round2 (pay - requiredPay)`, where `requiredPay` is the already-rounded
result field. -/
theorem evaluateOffer_difference (input : OfferInput) (settings : CalculationSettings) :
    (evaluateOffer input settings).difference =
      round2 (input.pay - (evaluateOffer input settings).requiredPay) := rfl

/-- C3 (counterexample): at pay 8.504, pickups 1, drops 1, miles 3 with
default settings, `totalMinutes` is positive and `ordersPerHour` is 3, but
the `effectiveHourly` field is 25.51, not `pay * ordersPerHour = 25.512`:
the product is rounded to 2 decimals, so `effectiveHourly = pay *
ordersPerHour` does not hold as stated. -/
theorem effectiveHourly_not_exact_product :
    0 < (evaluateOffer { pay := 1063/125, miles := 3 } DEFAULT_SETTINGS).totalMinutes ∧
    ordersPerHour { pay := 1063/125, miles := 3 } DEFAULT_SETTINGS = 3 ∧
    (evaluateOffer { pay := 1063/125, miles := 3 } DEFAULT_SETTINGS).effectiveHourly =
      2551/100 ∧
    (evaluateOffer { pay := 1063/125, miles := 3 } DEFAULT_SETTINGS).effectiveHourly ≠
      (1063/125 : ℚ) * ordersPerHour { pay := 1063/125, miles := 3 } DEFAULT_SETTINGS := by
  refine ⟨?_, ?_, ?_, ?_⟩ <;>
    norm_num [evaluateOffer, ordersPerHour, calculatePayReq, calculateMaxes, DEFAULT_SETTINGS,
      round2, min_def]

/-- C3 (amended): `ordersPerHour` is `min(maxOrdersPerHour, 60/totalMinutes)`
when `totalMinutes > 0` and `0` otherwise, and the `effectiveHourly` field is
`pay * ordersPerHour` rounded to 2 decimals; in particular, with default
settings and pay 8.5, pickups 1, drops 1, miles 3, `ordersPerHour` is capped
at 3, `effectiveHourly` is 25.5, and the verdict is GOOD. -/
theorem evaluateOffer_effectiveHourly_spec :
    (∀ (input : OfferInput) (settings : CalculationSettings),
      (0 < (evaluateOffer input settings).totalMinutes →
        ordersPerHour input settings =
          min settings.maxOrdersPerHour (60 / (evaluateOffer input settings).totalMinutes)) ∧
      ((evaluateOffer input settings).totalMinutes ≤ 0 → ordersPerHour input settings = 0) ∧
      (evaluateOffer input settings).effectiveHourly =
        round2 (input.pay * ordersPerHour input settings)) ∧
    ordersPerHour { pay := 17/2, miles := 3 } DEFAULT_SETTINGS = 3 ∧
    (evaluateOffer { pay := 17/2, miles := 3 } DEFAULT_SETTINGS).effectiveHourly = 51/2 ∧
    (evaluateOffer { pay := 17/2, miles := 3 } DEFAULT_SETTINGS).verdict = .good := by
  refine ⟨fun input settings => ⟨fun h => ?_, fun h => ?_, rfl⟩, ?_, ?_, ?_⟩
  · have h' : (calculatePayReq ⟨input.pickups, input.drops, input.miles, input.items⟩
        settings).totalMins > 0 := h
    simp only [ordersPerHour]
    rw [if_pos h']
    rfl
  · have h' : ¬ (calculatePayReq ⟨input.pickups, input.drops, input.miles, input.items⟩
        settings).totalMins > 0 := not_lt.mpr h
    simp only [ordersPerHour]
    rw [if_neg h']
  all_goals
    norm_num [evaluateOffer, ordersPerHour, calculatePayReq, calculateMaxes, DEFAULT_SETTINGS,
      round2, min_def]

/-- Witness for the amended C3 theorem at Scenario B's input. -/
theorem evaluateOffer_effectiveHourly_spec_witness :
    ordersPerHour { pay := 17/2, miles := 3 } DEFAULT_SETTINGS =
      min DEFAULT_SETTINGS.maxOrdersPerHour
        (60 / (evaluateOffer { pay := 17/2, miles := 3 } DEFAULT_SETTINGS).totalMinutes) :=
  (evaluateOffer_effectiveHourly_spec.1 _ _).1
    (by norm_num [evaluateOffer, calculatePayReq, DEFAULT_SETTINGS, round2])

/-- Modelled from the spec: the verdict as the claim reads §4.1/§4.2 —
derived from the unrounded intermediate `totalMinutes` and `requiredPay`
(and an unrounded effective hourly rate), rounding being a presentation
step only.  Used solely to compare against the implemented verdict. -/
def specVerdictUnrounded (input : OfferInput) (settings : CalculationSettings) : Verdict :=
  let totalMins := rawTotalMins ⟨input.pickups, input.drops, input.miles, input.items⟩ settings
  let requiredPay := totalMins * (settings.expectedPay / 60)
  let oph := if totalMins > 0 then min settings.maxOrdersPerHour (60 / totalMins) else 0
  let effectiveHourly := input.pay * oph
  if ¬ (requiredPay ≤ input.pay) then .bad
  else if settings.expectedPay ≤ effectiveHourly then .good
  else .decent

/-- C5 (counterexample): at pay 2.578, pickups 1, drops 1, miles 0.105,
items 0 with default settings, the unrounded required pay is exactly 2.576
≤ pay, yet `evaluateOffer` returns BAD because its floor test compares pay
against the 2-decimal-rounded `payReq` field, 2.58 (257.6 rounds up, 0.1
away from the half-cent tie, so the same holds in double arithmetic): the
verdict is derived from the rounded intermediates, not the unrounded ones
(which would give DECENT). -/
theorem verdict_uses_rounded_intermediates :
    (evaluateOffer { pay := 1289/500, miles := 21/200 } DEFAULT_SETTINGS).verdict = .bad ∧
    rawPayReq ⟨1, 1, 21/200, 0⟩ DEFAULT_SETTINGS ≤ 1289/500 ∧
    (calculatePayReq ⟨1, 1, 21/200, 0⟩ DEFAULT_SETTINGS).payReq = 129/50 ∧
    specVerdictUnrounded { pay := 1289/500, miles := 21/200 } DEFAULT_SETTINGS = .decent := by
  refine ⟨?_, ?_, ?_, ?_⟩ <;>
    norm_num [evaluateOffer, specVerdictUnrounded, calculatePayReq, calculateMaxes,
      rawPayReq, rawTotalMins, rawTravelTime, rawReturnDelta, returnPercent,
      DEFAULT_SETTINGS, round2, min_def]

/-- C5 (amended): inside `calculatePayReq` each output field is rounded once
from unrounded intermediates, but `evaluateOffer` consumes the rounded
`totalMins` and `payReq` fields: its verdict, effective hourly rate and
difference are functions of `pay`, `expectedPay`, `maxOrdersPerHour` and
those two rounded fields alone (`effectiveHourly` and `difference` receive
one further rounding at their own boundary). -/
theorem verdict_factors_through_rounded (i₁ i₂ : OfferInput) (s₁ s₂ : CalculationSettings)
    (hpay : i₁.pay = i₂.pay) (hexp : s₁.expectedPay = s₂.expectedPay)
    (hmax : s₁.maxOrdersPerHour = s₂.maxOrdersPerHour)
    (hT : (calculatePayReq ⟨i₁.pickups, i₁.drops, i₁.miles, i₁.items⟩ s₁).totalMins =
          (calculatePayReq ⟨i₂.pickups, i₂.drops, i₂.miles, i₂.items⟩ s₂).totalMins)
    (hR : (calculatePayReq ⟨i₁.pickups, i₁.drops, i₁.miles, i₁.items⟩ s₁).payReq =
          (calculatePayReq ⟨i₂.pickups, i₂.drops, i₂.miles, i₂.items⟩ s₂).payReq) :
    (evaluateOffer i₁ s₁).verdict = (evaluateOffer i₂ s₂).verdict ∧
    (evaluateOffer i₁ s₁).effectiveHourly = (evaluateOffer i₂ s₂).effectiveHourly ∧
    (evaluateOffer i₁ s₁).difference = (evaluateOffer i₂ s₂).difference := by
  simp only [evaluateOffer]
  rw [hpay, hexp, hmax, hT, hR]
  exact ⟨rfl, rfl, rfl⟩

/-- Witness for the amended C5 theorem: miles 35 and miles 35.001 have the
same rounded `totalMins` (127) and `payReq` (44.45), so the same verdict,
effective hourly rate and difference. -/
theorem verdict_factors_through_rounded_witness :
    (evaluateOffer { pay := 21, miles := 35 } DEFAULT_SETTINGS).verdict =
      (evaluateOffer { pay := 21, miles := 35001/1000 } DEFAULT_SETTINGS).verdict ∧
    (evaluateOffer { pay := 21, miles := 35 } DEFAULT_SETTINGS).effectiveHourly =
      (evaluateOffer { pay := 21, miles := 35001/1000 } DEFAULT_SETTINGS).effectiveHourly ∧
    (evaluateOffer { pay := 21, miles := 35 } DEFAULT_SETTINGS).difference =
      (evaluateOffer { pay := 21, miles := 35001/1000 } DEFAULT_SETTINGS).difference :=
  verdict_factors_through_rounded _ _ _ _ rfl rfl rfl
    (by norm_num [calculatePayReq, DEFAULT_SETTINGS, round2])
    (by norm_num [calculatePayReq, DEFAULT_SETTINGS, round2])

/-- C8: on any (nonnegative) offer and any settings the three core functions
produce a result: the embedding is total, as the source functions contain no
throwing operation (JS arithmetic on numbers never throws; division by zero
yields Infinity/NaN, not an exception). -/
theorem core_functions_total (i : OfferInput) (s : CalculationSettings)
    (_hi : NonnegOffer i) :
    (∃ e : OfferEvaluation, evaluateOffer i s = e) ∧
    (∃ p : PayReqResult, calculatePayReq ⟨i.pickups, i.drops, i.miles, i.items⟩ s = p) ∧
    (∃ m : MaxesResult, calculateMaxes ⟨i.pay, i.pickups, i.drops⟩ s = m) :=
  ⟨⟨_, rfl⟩, ⟨_, rfl⟩, ⟨_, rfl⟩⟩

/-- Witness for C8 at the all-zero offer. -/
theorem core_functions_total_witness :
    (∃ e : OfferEvaluation, evaluateOffer ⟨0, 0, 0, 0, 0⟩ DEFAULT_SETTINGS = e) ∧
    (∃ p : PayReqResult, calculatePayReq ⟨0, 0, 0, 0⟩ DEFAULT_SETTINGS = p) ∧
    (∃ m : MaxesResult, calculateMaxes ⟨0, 0, 0⟩ DEFAULT_SETTINGS = m) :=
  core_functions_total ⟨0, 0, 0, 0, 0⟩ DEFAULT_SETTINGS
    ⟨le_rfl, le_rfl, le_rfl, le_rfl, le_rfl⟩

/-- Modelled from the spec: §3's settings record of the calculations
revision with the optional `minHourlyPay` floor ($/hour, 0 disables).  That
revision of `calculations.ts` is not under `src/` — only its callers
(`page.tsx`, the API routes) are.  The `extraWaitTime` setting (used only by
the what-if exploration) is not modelled. -/
structure CalculationSettingsV2 extends CalculationSettings where
  minHourlyPay : ℚ

/-- Modelled from the spec: the §4.2 verdict state machine of the missing
calculations revision — `meetsFloor` is `effectiveHourly >= minHourlyPay`
when `minHourlyPay > 0` and the pay-vs-required-pay test otherwise; every
other computation follows the `src/` revision of `evaluateOffer` (it matches
the inlined what-if recomputation in `page.tsx`). -/
def evaluateOfferV2 (input : OfferInput) (sf : CalculationSettingsV2) : Verdict :=
  let s := sf.toCalculationSettings
  let payReq := calculatePayReq ⟨input.pickups, input.drops, input.miles, input.items⟩ s
  let effectiveHourly := round2 (input.pay * ordersPerHour input s)
  let meetsFloorV2 : Bool :=
    if 0 < sf.minHourlyPay then decide (sf.minHourlyPay ≤ effectiveHourly)
    else decide (payReq.payReq ≤ input.pay)
  if meetsFloorV2 then
    if s.expectedPay ≤ effectiveHourly then .good else .decent
  else .bad

/-- C4: when `minHourlyPay > 0`, the verdict floor test is the direct
hourly-rate test `effectiveHourly >= minHourlyPay` instead of
`pay >= requiredPay`; Scenario D: with `minHourlyPay = 25` the offer
pay 21, pickups 1, drops 1, miles 14 passes the pay-vs-required-pay test
(requiredPay 19.25 ≤ 21, verdict GOOD under the src revision) but fails the
hourly test (effectiveHourly 22.91 < 25), and the verdict follows the
hourly test: BAD. -/
theorem minHourlyPay_replaces_floor_test :
    (∀ (input : OfferInput) (sf : CalculationSettingsV2), 0 < sf.minHourlyPay →
      (evaluateOfferV2 input sf = .bad ↔
        (evaluateOffer input sf.toCalculationSettings).effectiveHourly < sf.minHourlyPay)) ∧
    (calculatePayReq ⟨1, 1, 14, 0⟩ DEFAULT_SETTINGS).payReq ≤ 21 ∧
    (evaluateOffer { pay := 21, miles := 14 } DEFAULT_SETTINGS).effectiveHourly < 25 ∧
    (evaluateOffer { pay := 21, miles := 14 } DEFAULT_SETTINGS).verdict = .good ∧
    evaluateOfferV2 { pay := 21, miles := 14 }
      { toCalculationSettings := DEFAULT_SETTINGS, minHourlyPay := 25 } = .bad := by
  constructor
  · intro input sf h
    rw [evaluateOffer_effectiveHourly]
    simp only [evaluateOfferV2]
    rw [if_pos h]
    split_ifs with h1 h2 <;>
      simp_all [decide_eq_true_eq, not_le, not_lt]
  · refine ⟨?_, ?_, ?_, ?_⟩ <;>
      norm_num [evaluateOffer, evaluateOfferV2, ordersPerHour, calculatePayReq,
        calculateMaxes, DEFAULT_SETTINGS, round2, min_def]

/-- Witness for C4 at Scenario D's offer and settings. -/
theorem minHourlyPay_replaces_floor_test_witness :
    evaluateOfferV2 { pay := 21, miles := 14 }
        { toCalculationSettings := DEFAULT_SETTINGS, minHourlyPay := 25 } = .bad ↔
      (evaluateOffer { pay := 21, miles := 14 } DEFAULT_SETTINGS).effectiveHourly < 25 :=
  minHourlyPay_replaces_floor_test.1 _ _ (by norm_num)

/-- Modelled from the spec: the threshold table of §4.2 as consumed by
`page.tsx` and `api/text/route.ts` (`evaluation.thresholds`); unreachable
GOOD-side thresholds are the absent value `none`.  The "before-BAD"
thresholds of §4.2's last bullet are not needed by any claim and are not
modelled. -/
structure Thresholds where
  canBeGood : Bool
  maxTimeForDecent : ℚ
  maxTimeForGood : Option ℚ
  maxMilesForDecent : ℚ
  maxMilesForGood : Option ℚ
  maxItemsForDecent : ℤ
  maxItemsForGood : Option ℤ
  minPayForGood : ℚ
  deriving Repr, DecidableEq

/-- Modelled from the spec: §4.2's threshold derivation (its computing
revision of `calculations.ts` is not under `src/`; only its callers are):
`canBeGood = pay * maxOrdersPerHour >= expectedPay`; each GOOD-side
threshold is `none` ("unreachable") unless `canBeGood`. -/
def computeThresholds (input : OfferInput) (s : CalculationSettings) : Thresholds :=
  let payReqIn : PayReqInput := ⟨input.pickups, input.drops, input.miles, input.items⟩
  let canBeGood : Bool := decide (s.expectedPay ≤ input.pay * s.maxOrdersPerHour)
  let maxMinutes := input.pay / s.expectedPay * 60
  let fixedNoTravel :=
    input.pickups * s.perPickup + input.drops * s.perDrop + input.items * s.perItem
  let maxMilesForDecent :=
    max 0 ((maxMinutes - fixedNoTravel) / (1 + returnPercent input.drops s / 100) *
      s.avgSpeed / 60)
  let fixedWithTravel :=
    input.pickups * s.perPickup + input.drops * s.perDrop +
      rawTravelTime payReqIn s + rawReturnDelta payReqIn s
  let maxItemsForDecent := max 0 ⌊(maxMinutes - fixedWithTravel) / s.perItem⌋
  let oph := ordersPerHour input s
  { canBeGood := canBeGood
    maxTimeForDecent := maxMinutes
    maxTimeForGood := if canBeGood then some maxMinutes else none
    maxMilesForDecent := maxMilesForDecent
    maxMilesForGood := if canBeGood then some maxMilesForDecent else none
    maxItemsForDecent := maxItemsForDecent
    maxItemsForGood := if canBeGood then some maxItemsForDecent else none
    minPayForGood := if 0 < oph then s.expectedPay / oph else 0 }

/-- C7: when `canBeGood` is false (the pay cannot reach GOOD even at the
throughput cap), all three GOOD-side thresholds are the absent marker
`none`, never finite numbers. -/
theorem canBeGood_false_thresholds_unreachable (input : OfferInput)
    (s : CalculationSettings) (h : (computeThresholds input s).canBeGood = false) :
    (computeThresholds input s).maxMilesForGood = none ∧
    (computeThresholds input s).maxTimeForGood = none ∧
    (computeThresholds input s).maxItemsForGood = none := by
  simp only [computeThresholds] at h ⊢
  simp [h]

/-- Witness for C7: pay 1 with default settings has
`canBeGood = (1 * 3 >= 21) = false`. -/
theorem canBeGood_false_thresholds_unreachable_witness :
    (computeThresholds { pay := 1 } DEFAULT_SETTINGS).maxMilesForGood = none ∧
    (computeThresholds { pay := 1 } DEFAULT_SETTINGS).maxTimeForGood = none ∧
    (computeThresholds { pay := 1 } DEFAULT_SETTINGS).maxItemsForGood = none :=
  canBeGood_false_thresholds_unreachable _ _
    (by simp only [computeThresholds, DEFAULT_SETTINGS]
        norm_num [decide_eq_false_iff_not])

/-! Monotonicity infrastructure for C6. -/

theorem round2_mono {a b : ℚ} (h : a ≤ b) : round2 a ≤ round2 b := by
  have h2 : (⌊a * 100 + 1/2⌋ : ℤ) ≤ ⌊b * 100 + 1/2⌋ := Int.floor_mono (by linarith)
  have h3 : ((⌊a * 100 + 1/2⌋ : ℤ) : ℚ) ≤ ((⌊b * 100 + 1/2⌋ : ℤ) : ℚ) := by exact_mod_cast h2
  unfold round2
  linarith

theorem round2_zero : round2 0 = 0 := by unfold round2; norm_num

theorem round2_nonneg {a : ℚ} (h : 0 ≤ a) : 0 ≤ round2 a := by
  have := round2_mono h
  rwa [round2_zero] at this

theorem calculatePayReq_totalMins (input : PayReqInput) (settings : CalculationSettings) :
    (calculatePayReq input settings).totalMins = round2 (rawTotalMins input settings) := rfl

theorem calculatePayReq_payReq (input : PayReqInput) (settings : CalculationSettings) :
    (calculatePayReq input settings).payReq = round2 (rawPayReq input settings) := rfl

theorem returnPercent_nonneg {d : ℚ} {s : CalculationSettings} (hS : ValidSettings s) :
    0 ≤ returnPercent d s := by
  obtain ⟨-, -, -, -, -, -, h7, h8⟩ := hS
  unfold returnPercent
  split_ifs <;> assumption

theorem rawTravelTime_nonneg {i : PayReqInput} {s : CalculationSettings}
    (hS : ValidSettings s) (hm : 0 ≤ i.miles) : 0 ≤ rawTravelTime i s := by
  obtain ⟨-, -, -, h4, -, -, -, -⟩ := hS
  unfold rawTravelTime
  exact mul_nonneg (div_nonneg hm h4.le) (by norm_num)

theorem rawTotalMins_nonneg {i : PayReqInput} {s : CalculationSettings}
    (hS : ValidSettings s) (hp : 0 ≤ i.pickups) (hd : 0 ≤ i.drops)
    (hm : 0 ≤ i.miles) (hit : 0 ≤ i.items) : 0 ≤ rawTotalMins i s := by
  have ht := rawTravelTime_nonneg hS hm
  have hrd : 0 ≤ rawReturnDelta i s := by
    unfold rawReturnDelta
    exact mul_nonneg ht (div_nonneg (returnPercent_nonneg hS) (by norm_num))
  obtain ⟨h1, h2, h3, -, -, -, -, -⟩ := hS
  have hpp : 0 ≤ i.pickups * s.perPickup := mul_nonneg hp h1
  have hdd : 0 ≤ i.drops * s.perDrop := mul_nonneg hd h2
  have hii : 0 ≤ i.items * s.perItem := mul_nonneg hit h3
  unfold rawTotalMins
  linarith

theorem rawTotalMins_mono_miles (p d it m₁ m₂ : ℚ) (s : CalculationSettings)
    (hS : ValidSettings s) (_hm1 : 0 ≤ m₁) (h : m₁ ≤ m₂) :
    rawTotalMins ⟨p, d, m₁, it⟩ s ≤ rawTotalMins ⟨p, d, m₂, it⟩ s := by
  have h4 : 0 < s.avgSpeed := hS.2.2.2.1
  have ht : rawTravelTime ⟨p, d, m₁, it⟩ s ≤ rawTravelTime ⟨p, d, m₂, it⟩ s := by
    unfold rawTravelTime
    exact mul_le_mul_of_nonneg_right ((div_le_div_iff_of_pos_right h4).mpr h) (by norm_num)
  have hrd : rawReturnDelta ⟨p, d, m₁, it⟩ s ≤ rawReturnDelta ⟨p, d, m₂, it⟩ s := by
    unfold rawReturnDelta
    exact mul_le_mul_of_nonneg_right ht
      (div_nonneg (returnPercent_nonneg hS) (by norm_num))
  unfold rawTotalMins
  dsimp only
  linarith

/-- The verdict of `evaluateOffer` as an explicit two-test conditional. -/
theorem evaluateOffer_verdict_eq (input : OfferInput) (settings : CalculationSettings) :
    (evaluateOffer input settings).verdict =
      (if ¬ ((calculatePayReq ⟨input.pickups, input.drops, input.miles, input.items⟩
            settings).payReq ≤ input.pay) then .bad
       else if settings.expectedPay ≤ round2 (input.pay * ordersPerHour input settings) then
         Verdict.good
       else .decent) := rfl

theorem verdictRank_le_of_imp {p₁ p₂ g₁ g₂ : Prop} [Decidable p₁] [Decidable p₂]
    [Decidable g₁] [Decidable g₂] (hp : p₂ → p₁) (hg : g₂ → g₁) :
    verdictRank (if ¬ p₂ then .bad else if g₂ then .good else .decent) ≤
      verdictRank (if ¬ p₁ then .bad else if g₁ then .good else .decent) := by
  split_ifs <;> simp_all [verdictRank]

theorem ordersPerHour_nonneg {i : OfferInput} {s : CalculationSettings}
    (hS : ValidSettings s) : 0 ≤ ordersPerHour i s := by
  have h6 : 0 < s.maxOrdersPerHour := hS.2.2.2.2.2.1
  simp only [ordersPerHour]
  split_ifs with h
  · exact le_min h6.le (div_nonneg (by norm_num) h.le)
  · exact le_rfl

/-- C6 (counterexample): with valid settings (avgSpeed 35 > 0,
maxOrdersPerHour 3 > 0) whose per-stop minutes are zero, the offer pay 21,
pickups 1, drops 1, items 0, miles 0 gets DECENT (its rounded total time is
0, so the throughput term is zeroed), while the identical offer with more
miles (0.01) gets GOOD: increasing miles alone improved the verdict, so the
claimed miles-monotonicity fails as stated. -/
theorem miles_increase_improves_verdict :
    ValidSettings { DEFAULT_SETTINGS with perPickup := 0, perDrop := 0 } ∧
    (evaluateOffer { pay := 21 }
      { DEFAULT_SETTINGS with perPickup := 0, perDrop := 0 }).verdict = .decent ∧
    (evaluateOffer { pay := 21, miles := 1/100 }
      { DEFAULT_SETTINGS with perPickup := 0, perDrop := 0 }).verdict = .good := by
  refine ⟨by norm_num [ValidSettings, DEFAULT_SETTINGS], ?_, ?_⟩ <;>
    norm_num [evaluateOffer, calculatePayReq, calculateMaxes, DEFAULT_SETTINGS, round2,
      min_def]

/-- C6 (amended): under the spec §3 settings invariant (componentwise
nonnegative, `avgSpeed > 0`, `maxOrdersPerHour > 0`) and nonnegative offers,
and provided the lower-miles offer's rounded total minutes are positive,
increasing `miles` (pay/pickups/drops/items fixed) never improves the
verdict on the ordering BAD < DECENT < GOOD; increasing `pay` alone never
worsens it (no positivity proviso needed). -/
theorem verdict_monotone (s : CalculationSettings) (i₁ i₂ : OfferInput)
    (hS : ValidSettings s) (h₁ : NonnegOffer i₁) (_h₂ : NonnegOffer i₂) :
    ((i₁.pay = i₂.pay ∧ i₁.pickups = i₂.pickups ∧ i₁.drops = i₂.drops ∧
        i₁.items = i₂.items ∧ i₁.miles ≤ i₂.miles ∧
        0 < (calculatePayReq ⟨i₁.pickups, i₁.drops, i₁.miles, i₁.items⟩ s).totalMins) →
      verdictRank (evaluateOffer i₂ s).verdict ≤ verdictRank (evaluateOffer i₁ s).verdict) ∧
    ((i₁.pickups = i₂.pickups ∧ i₁.drops = i₂.drops ∧ i₁.miles = i₂.miles ∧
        i₁.items = i₂.items ∧ i₁.pay ≤ i₂.pay) →
      verdictRank (evaluateOffer i₁ s).verdict ≤ verdictRank (evaluateOffer i₂ s).verdict) := by
  obtain ⟨hs1, hs2, hs3, hs4, hs5, hs6, hs7, hs8⟩ := hS
  constructor
  · rintro ⟨hpay, hpk, hdr, hit, hm, hT₁⟩
    have hraw : rawTotalMins ⟨i₁.pickups, i₁.drops, i₁.miles, i₁.items⟩ s ≤
        rawTotalMins ⟨i₂.pickups, i₂.drops, i₂.miles, i₂.items⟩ s := by
      rw [← hpk, ← hdr, ← hit]
      exact rawTotalMins_mono_miles i₁.pickups i₁.drops i₁.items i₁.miles i₂.miles s
        ⟨hs1, hs2, hs3, hs4, hs5, hs6, hs7, hs8⟩ h₁.2.2.2.1 hm
    have hT : (calculatePayReq ⟨i₁.pickups, i₁.drops, i₁.miles, i₁.items⟩ s).totalMins ≤
        (calculatePayReq ⟨i₂.pickups, i₂.drops, i₂.miles, i₂.items⟩ s).totalMins := by
      rw [calculatePayReq_totalMins, calculatePayReq_totalMins]
      exact round2_mono hraw
    have hR : (calculatePayReq ⟨i₁.pickups, i₁.drops, i₁.miles, i₁.items⟩ s).payReq ≤
        (calculatePayReq ⟨i₂.pickups, i₂.drops, i₂.miles, i₂.items⟩ s).payReq := by
      rw [calculatePayReq_payReq, calculatePayReq_payReq]
      exact round2_mono (mul_le_mul_of_nonneg_right hraw (div_nonneg hs5 (by norm_num)))
    have hT₂ : 0 < (calculatePayReq ⟨i₂.pickups, i₂.drops, i₂.miles, i₂.items⟩ s).totalMins :=
      lt_of_lt_of_le hT₁ hT
    have hO : ordersPerHour i₂ s ≤ ordersPerHour i₁ s := by
      simp only [ordersPerHour]
      rw [if_pos hT₂, if_pos hT₁]
      exact min_le_min le_rfl (div_le_div_of_nonneg_left (by norm_num) hT₁ hT)
    have hE : round2 (i₂.pay * ordersPerHour i₂ s) ≤ round2 (i₁.pay * ordersPerHour i₁ s) := by
      rw [← hpay]
      exact round2_mono (mul_le_mul_of_nonneg_left hO h₁.1)
    rw [evaluateOffer_verdict_eq, evaluateOffer_verdict_eq]
    refine verdictRank_le_of_imp (fun hmeets => ?_) (fun hg => le_trans hg hE)
    rw [hpay]
    exact le_trans hR hmeets
  · rintro ⟨hpk, hdr, hm, hit, hp⟩
    have hsame : (⟨i₁.pickups, i₁.drops, i₁.miles, i₁.items⟩ : PayReqInput) =
        ⟨i₂.pickups, i₂.drops, i₂.miles, i₂.items⟩ := by
      rw [hpk, hdr, hm, hit]
    have hOeq : ordersPerHour i₁ s = ordersPerHour i₂ s := by
      simp only [ordersPerHour]
      rw [hsame]
    have hO0 : 0 ≤ ordersPerHour i₁ s :=
      ordersPerHour_nonneg ⟨hs1, hs2, hs3, hs4, hs5, hs6, hs7, hs8⟩
    have hE : round2 (i₁.pay * ordersPerHour i₁ s) ≤ round2 (i₂.pay * ordersPerHour i₂ s) := by
      rw [← hOeq]
      exact round2_mono (mul_le_mul_of_nonneg_right hp hO0)
    rw [evaluateOffer_verdict_eq, evaluateOffer_verdict_eq, hsame]
    refine verdictRank_le_of_imp (fun hmeets => le_trans hmeets hp) (fun hg => le_trans hg hE)

/-- Witness for the amended C6 theorem: both monotonicity directions at
concrete offers (miles 35 vs 36, pay 21 vs 22) under default settings. -/
theorem verdict_monotone_witness :
    verdictRank (evaluateOffer { pay := 21, miles := 36 } DEFAULT_SETTINGS).verdict ≤
      verdictRank (evaluateOffer { pay := 21, miles := 35 } DEFAULT_SETTINGS).verdict :=
  (verdict_monotone DEFAULT_SETTINGS { pay := 21, miles := 35 } { pay := 21, miles := 36 }
      (by norm_num [ValidSettings, DEFAULT_SETTINGS])
      (by norm_num [NonnegOffer]) (by norm_num [NonnegOffer])).1
    ⟨rfl, rfl, rfl, rfl, by norm_num,
      by norm_num [calculatePayReq, DEFAULT_SETTINGS, round2]⟩

end PayCalc
